import Mathlib

/-!
Shallow embedding of the pyairview real-time RSSI plotting programs:
`realtime_plot.py` (console variant, Lean names prefixed `Console`),
`gui-untested.py` (basic GUI variant, prefixed `GuiBasic`) and
`gui_untested_too.py` (extended GUI variant, prefixed `GuiExt`).
Frequencies are modelled as rationals; RSSI readings as integers.
-/

/-- `np.linspace(a, b, n)` with the default `endpoint=True`:
`n` evenly spaced samples from `a` to `b` inclusive
(`[]` for `n = 0`, `[a]` for `n = 1`, otherwise `a + i*(b-a)/(n-1)`). -/
def linspace (a b : ℚ) (n : Nat) : List ℚ :=
  if n = 0 then []
  else if n = 1 then [a]
  else (List.range n).map (fun (i : Nat) => a + (i : ℚ) * ((b - a) / ((n : ℚ) - 1)))

/-- An arithmetic step list `a, a+d, a+2d, ...` of `n` points, the shape of
`[start_freq + i * freq_step for i in range(num_points)]`. -/
def stepList (a d : ℚ) (n : Nat) : List ℚ :=
  (List.range n).map (fun (i : Nat) => a + (i : ℚ) * d)

/-- The spec's notion of a frequency axis "evenly spaced between `a` and `b`":
first element `a`, last element `b`, and uniform spacing `(b-a)/(len-1)`
between consecutive elements. -/
def evenlySpaced (a b : ℚ) (l : List ℚ) : Prop :=
  l.head? = some a ∧ l.getLast? = some b ∧
    ∀ i, i < l.length - 1 →
      l.getD (i + 1) 0 - l.getD i 0 = (b - a) / ((l.length : ℚ) - 1)

instance (a b : ℚ) (l : List ℚ) : Decidable (evenlySpaced a b l) := by
  unfold evenlySpaced
  infer_instance

/-! ## Console variant: `realtime_plot.py` -/

/-- `START_FREQ = 2399.0` (MHz). -/
def Console.START_FREQ : ℚ := 2399

/-- `END_FREQ = 2485.0` (MHz). -/
def Console.END_FREQ : ℚ := 2485

/-- `FREQ_STEP = 0.5` (MHz). -/
def Console.FREQ_STEP : ℚ := 1/2

/-- The frequency axis built inside `plot_rssi_spectrum` for one dequeued
sweep: `frequencies = [START_FREQ + i * FREQ_STEP for i in range(num_points)]`
with `num_points = len(rssi_values)`. -/
def Console.plotFrequencies (rssi_values : List Int) : List ℚ :=
  stepList Console.START_FREQ Console.FREQ_STEP rssi_values.length

/-- One pass of the `while True` body of `plot_rssi_spectrum`: if the queue
is non-empty, exactly one sweep is taken (`plot_data_queue.get()`) and
plotted; the rest of the queue is untouched. Returns the plotted sweep (if
any) and the remaining queue. -/
def Console.plotTick (queue : List (List Int)) : Option (List Int) × List (List Int) :=
  match queue with
  | [] => (none, [])
  | d :: rest => (some d, rest)

/-! ### The regex log parser `parse_rssi_input`

The pattern is `Received \d+ RSSI level readings: \[(.*)\]` used with
`re.search` (leftmost match), `.` not matching newlines and `(.*)` greedy,
so group 1 runs to the last `]` in the newline-free stretch after `[`. -/

/-- `s.split(",")` on a list of characters: split at every comma, keeping
empty pieces (so the empty string yields one empty piece). -/
def Console.splitOnComma : List Char → List (List Char)
  | [] => [[]]
  | c :: rest =>
      if c = ',' then [] :: Console.splitOnComma rest
      else
        match Console.splitOnComma rest with
        | g :: gs => (c :: g) :: gs
        | [] => [[c]]

/-- ASCII-whitespace strip, as Python `int()` applies to its argument. -/
def Console.pyStrip (s : List Char) : List Char :=
  ((s.dropWhile Char.isWhitespace).reverse.dropWhile Char.isWhitespace).reverse

/-- Digit-run parser for Python `int()` bodies: `digit (("_")? digit)*`
(a single underscore is allowed only between two digits). Accumulates the
value; `none` when the run is malformed or ends in an underscore. -/
def Console.digitsAux (acc : Nat) : List Char → Option Nat
  | [] => some acc
  | '_' :: rest =>
      match rest with
      | c :: cs =>
          if c.isDigit then Console.digitsAux (acc * 10 + (c.toNat - 48)) cs else none
      | [] => none
  | c :: cs =>
      if c.isDigit then Console.digitsAux (acc * 10 + (c.toNat - 48)) cs else none

/-- Non-empty digit run with optional underscores between digits. -/
def Console.digitRun : List Char → Option Nat
  | [] => none
  | c :: cs => if c.isDigit then Console.digitsAux (c.toNat - 48) cs else none

/-- Python `int(s)` on a string: strip whitespace, optional sign, then a
non-empty digit run; `none` models `int` raising `ValueError`. -/
def Console.pyInt (s : List Char) : Option Int :=
  match Console.pyStrip s with
  | '+' :: rest => (Console.digitRun rest).map Int.ofNat
  | '-' :: rest => (Console.digitRun rest).map (fun n => -(n : Int))
  | rest => (Console.digitRun rest).map Int.ofNat

/-- `list(map(int, pieces))`: all pieces must convert; the first failure
raises, modelled by `none`. -/
def Console.allInts : List (List Char) → Option (List Int)
  | [] => some []
  | p :: ps =>
      match Console.pyInt p, Console.allInts ps with
      | some v, some vs => some (v :: vs)
      | _, _ => none

/-- Consume a literal: `stripLit lit s` returns the remainder of `s` after
the exact character sequence `lit`, or `none` when `s` does not start
with `lit`. -/
def Console.stripLit : List Char → List Char → Option (List Char)
  | [], s => some s
  | _ :: _, [] => none
  | c :: lit, x :: s => if c = x then Console.stripLit lit s else none

/-- Content before the last `]` of the list, `none` if there is no `]`.
This realises the greedy `(.*)\]` tail of the pattern on a newline-free
stretch (`.` also matches `]`, so the group extends to the last one). -/
def Console.lastBeforeRBracket : List Char → Option (List Char)
  | [] => none
  | c :: rest =>
      match Console.lastBeforeRBracket rest with
      | some g => some (c :: g)
      | none => if c = ']' then some [] else none

/-- Attempt to match the pattern at the current position: literal
`Received `, one or more digits, literal ` RSSI level readings: [`, then
the greedy group `(.*)` up to the last `]` before any newline.
Returns group 1 on success. -/
def Console.matchAt (s : List Char) : Option (List Char) :=
  match Console.stripLit "Received ".toList s with
  | none => none
  | some r1 =>
      let ds := r1.takeWhile Char.isDigit
      if ds.isEmpty then none
      else
        match Console.stripLit " RSSI level readings: [".toList (r1.dropWhile Char.isDigit) with
        | none => none
        | some r2 =>
            Console.lastBeforeRBracket (r2.takeWhile (fun c => c ≠ '\n'))

/-- `re.search`: try the pattern at each start position from the left and
return group 1 of the first (leftmost) match. -/
def Console.reSearch : List Char → Option (List Char)
  | [] => none
  | c :: rest =>
      match Console.matchAt (c :: rest) with
      | some g => some g
      | none => Console.reSearch rest

/-- The two diagnostics `parse_rssi_input` can print. -/
inductive Console.Diag where
  | noValidData
  | errorParsing
deriving DecidableEq

/-- `parse_rssi_input(input_text)`: regex-extract the bracket contents and
convert to a list of integers; on no match return `[]` printing
"No valid RSSI data found in the input."; if `int` conversion raises,
the handler returns `[]` printing "Error parsing input: ...". The second
component records which diagnostic (if any) was printed. -/
def Console.parse_rssi_input (input_text : String) : List Int × Option Console.Diag :=
  match Console.reSearch input_text.toList with
  | some rssi_data =>
      match Console.allInts (Console.splitOnComma rssi_data) with
      | some readings => (readings, none)
      | none => ([], some Console.Diag.errorParsing)
  | none => ([], some Console.Diag.noValidData)

/-- The value the claim calls "the list of integers found inside the square
brackets": defined exactly when the pattern matches and every
comma-separated piece of group 1 converts with `int`. -/
def Console.bracketInts (s : String) : Option (List Int) :=
  (Console.reSearch s.toList).bind (fun g => Console.allInts (Console.splitOnComma g))

/-! ## Basic GUI variant: `gui-untested.py` -/

/-- `SpectrumCanvas.plot_rssi` of the basic GUI: empty input returns without
plotting (`none`); otherwise the step-based axis is built, truncated when
longer than the data, or replaced by `np.linspace` across the configured
range when shorter. Returns the frequency axis actually plotted. -/
def GuiBasic.plot_rssi (start_freq end_freq freq_step : ℚ)
    (rssi_values : List Int) : Option (List ℚ) :=
  if rssi_values = [] then none
  else
    let num_points := rssi_values.length
    let freqs := stepList start_freq freq_step num_points
    let freqs2 :=
      if num_points < freqs.length then freqs.take num_points
      else if freqs.length < num_points then linspace start_freq end_freq num_points
      else freqs
    some freqs2

/-- `MainWindow._process_plot_queue` of the basic GUI: repeated
`get_nowait()` until the `Empty` exception; each dequeued item that is a
non-empty list is plotted. Returns the plotted sweeps in order and the
queue contents remaining when the loop stops. -/
def GuiBasic.processPlotQueue : List (List Int) → List (List Int) × List (List Int)
  | [] => ([], [])
  | d :: rest =>
      let (p, r) := GuiBasic.processPlotQueue rest
      if d = [] then (p, r) else (d :: p, r)

/-! ## Extended GUI variant: `gui_untested_too.py` -/

/-- `SpectrumCanvas.plot_rssi` of the extended GUI: empty input returns
without plotting; otherwise the axis is
`np.linspace(start_freq, end_freq, len(rssi_values))`. -/
def GuiExt.plot_rssi (start_freq end_freq : ℚ) (rssi_values : List Int) :
    Option (List ℚ) :=
  if rssi_values = [] then none
  else some (linspace start_freq end_freq rssi_values.length)

/-- `MainWindow._update_plot`: drain the queue with `get_nowait()` until
`Empty`; every non-empty list becomes the new `latest_data` and is plotted
(and logged when enabled). Returns the final `latest_data` and the queue
contents remaining when the loop stops. -/
def GuiExt.updatePlotDrain (latest_data : List Int) :
    List (List Int) → List Int × List (List Int)
  | [] => (latest_data, [])
  | d :: rest =>
      if d = [] then GuiExt.updatePlotDrain latest_data rest
      else GuiExt.updatePlotDrain d rest

/-- `MainWindow._update_plot` again, additionally recording the sweeps
passed to `self.canvas.plot_rssi` (and, when logging is enabled, to
`self._log_data`): each dequeued non-empty list, in dequeue order.
Returns the final `latest_data`, the plotted sweeps, and the queue
contents remaining when the loop stops. -/
def GuiExt.updatePlotTrace (latest_data : List Int) :
    List (List Int) → List Int × List (List Int) × List (List Int)
  | [] => (latest_data, [], [])
  | d :: rest =>
      if d = [] then GuiExt.updatePlotTrace latest_data rest
      else
        let r := GuiExt.updatePlotTrace d rest
        (r.1, d :: r.2.1, r.2.2)

/-- A row of the export CSV written by `MainWindow._export_csv`. -/
inductive GuiExt.ExpRow where
  | header
  | entry (fr : ℚ) (rssi : Int)
deriving DecidableEq

/-- A row of the log CSV written by `MainWindow._log_data`. -/
inductive GuiExt.LogRow where
  | header
  | entry (ts : String) (fr : ℚ) (rssi : Int)
deriving DecidableEq

/-- The data rows of the export CSV: `zip(freqs, self.latest_data)` with
`freqs = np.linspace(start, end, len(latest_data))`, written in order. -/
def GuiExt.exportRows (start_freq end_freq : ℚ) (data : List Int) :
    List GuiExt.ExpRow :=
  ((linspace start_freq end_freq data.length).zip data).map
    (fun p => GuiExt.ExpRow.entry p.1 p.2)

/-- `MainWindow._export_csv`: with no data it sets a status message and
writes no file (`none`); otherwise the chosen file is overwritten with the
header row followed by one row per RSSI value. -/
def GuiExt._export_csv (start_freq end_freq : ℚ) (latest_data : List Int) :
    Option (List GuiExt.ExpRow) :=
  if latest_data = [] then none
  else some (GuiExt.ExpRow.header :: GuiExt.exportRows start_freq end_freq latest_data)

/-- The data rows appended by one `MainWindow._log_data` call:
`zip(freqs, data)` with `freqs = np.linspace(start, end, len(data))`, each
row carrying the one timestamp taken at the start of the call. -/
def GuiExt.logRows (start_freq end_freq : ℚ) (timestamp : String)
    (data : List Int) : List GuiExt.LogRow :=
  ((linspace start_freq end_freq data.length).zip data).map
    (fun p => GuiExt.LogRow.entry timestamp p.1 p.2)

/-- The fixed log path `os.path.expanduser('~/rssi_log.csv')` before
expansion. -/
def GuiExt.log_path : String := "~/rssi_log.csv"

/-- The mode string passed to `open` by `_log_data`. -/
def GuiExt.logOpenMode : String := "a"

/-- `MainWindow._log_data` as a transformer of the log file's contents
(`none` = file does not exist): `open(log_path, 'a')` keeps existing rows
(creating an empty file when absent), the header row is written only when
the file was absent, then the data rows are appended. -/
def GuiExt._log_data (file : Option (List GuiExt.LogRow))
    (start_freq end_freq : ℚ) (timestamp : String) (data : List Int) :
    List GuiExt.LogRow :=
  (match file with
   | none => [GuiExt.LogRow.header]
   | some rows => rows) ++ GuiExt.logRows start_freq end_freq timestamp data

/-- The log files reachable by the program: initially the file does not
exist, and each `_log_data` call rewrites it to `_log_data` of the old
contents. -/
inductive GuiExt.LogReachable : Option (List GuiExt.LogRow) → Prop where
  | init : GuiExt.LogReachable none
  | step (file : Option (List GuiExt.LogRow)) (a b : ℚ) (ts : String)
      (data : List Int) : GuiExt.LogReachable file →
      GuiExt.LogReachable (some (GuiExt._log_data file a b ts data))

/-! ## Scanner lifecycle models

`ScannerThread.run` (both GUI variants share the same control flow; they
differ only in the sleep interval and status texts) and the console
`start_scan` are modelled as trace-producing functions over an environment
that fixes the behaviour of the vendor `pyairview` library. Exceptions are
explicit: a try block yields its emitted events plus an optional pending
exception message, which the translated handlers then consume. -/

/-- Outcome of `pyairview.connect(port)`. -/
inductive ConnectOutcome where
  | raises
  | returnsFalse
  | returnsTrue
deriving DecidableEq

/-- Behaviour of the vendor library and of the stop flag during one
scanner session. `stop i` is the value of `stop_event.is_set()` at the
`i`-th loop check; `scanning q` the value of the `q`-th `is_scanning()`
query; `raiseAt = some q` makes the `q`-th `is_scanning()` query raise;
`exnMsg` is the text of whichever exception is raised. -/
structure ScanEnv where
  connect : ConnectOutcome
  stop : Nat → Bool
  scanning : Nat → Bool
  raiseAt : Option Nat
  stopScanRaises : Bool
  disconnectRaises : Bool
  exnMsg : String

/-- Events observable from a `ScannerThread.run` execution. -/
inductive Ev where
  | connectAttempt
  | cbStatus (s : String)
  | cbError (s : String)
  | startScanCall
  | sleep
  | stopScanCall
  | disconnectAttempt
deriving DecidableEq

/-- Exit of the monitoring loop
`while not self.stop_event.is_set() and pyairview.is_scanning(): sleep`:
either a normal exit (recording the next unused `is_scanning` query index)
or an exception escaping from the `q`-th query. -/
inductive LoopExit where
  | normal (q : Nat)
  | raised
deriving DecidableEq

/-- The monitoring loop, counting sleeps. `fuel` bounds the number of loop
iterations that can be unrolled (`none` = not yet terminated within
`fuel`); `i` is the index of the current stop-flag check and `q` of the
next `is_scanning` query. On each iteration the stop flag is checked
first; only if it is clear is `is_scanning()` queried (which may raise);
only if that returns true does the thread sleep one polling interval. -/
def monitorLoop (env : ScanEnv) : Nat → Nat → Nat → Option (Nat × LoopExit)
  | 0, _, _ => none
  | fuel + 1, i, q =>
      if env.stop i then some (0, LoopExit.normal q)
      else if env.raiseAt = some q then some (0, LoopExit.raised)
      else if env.scanning q then
        (monitorLoop env fuel (i + 1) (q + 1)).map (fun r => (r.1 + 1, r.2))
      else some (0, LoopExit.normal (q + 1))

/-- The try block of `ScannerThread.run`: events emitted, plus the pending
exception (if one is propagating when the block is left). `connectedMsg`
is the status text sent after a successful connect (the two GUI variants
differ here). -/
def scannerTryBlock (env : ScanEnv) (port connectedMsg : String) (fuel : Nat) :
    Option (List Ev × Option String) :=
  match env.connect with
  | ConnectOutcome.raises => some ([Ev.connectAttempt], some env.exnMsg)
  | ConnectOutcome.returnsFalse =>
      some ([Ev.connectAttempt, Ev.cbError ("Failed to connect to " ++ port)], none)
  | ConnectOutcome.returnsTrue =>
      match monitorLoop env fuel 0 0 with
      | none => none
      | some (s, ex) =>
          let pre := [Ev.connectAttempt, Ev.cbStatus connectedMsg, Ev.startScanCall]
            ++ List.replicate s Ev.sleep
          match ex with
          | LoopExit.raised => some (pre, some env.exnMsg)
          | LoopExit.normal q =>
              if env.raiseAt = some q then some (pre, some env.exnMsg)
              else if env.scanning q then
                if env.stopScanRaises then
                  some (pre ++ [Ev.stopScanCall], some env.exnMsg)
                else some (pre ++ [Ev.stopScanCall], none)
              else some (pre, none)

/-- The common `ScannerThread.run` body: the try block, then `except Exception` turning a
pending exception into an `__error__` callback, then the `finally` block
(a disconnect attempt whose own exception is swallowed by the inner
`except: pass`, and a final `__status__` callback). The second component
is the exception escaping the whole method. -/
def scannerThreadRun (env : ScanEnv) (port connectedMsg : String) (fuel : Nat) :
    Option (List Ev × Option String) :=
  (scannerTryBlock env port connectedMsg fuel).map (fun r =>
    (( match r.2 with
       | some e => r.1 ++ [Ev.cbError ("Scanner error: " ++ e)]
       | none => r.1)
      ++ [Ev.disconnectAttempt, Ev.cbStatus "Disconnected"], none))

/-- `ScannerThread.run` of `gui-untested.py` (0.5 s polling interval). -/
def GuiBasic.ScannerThread.run (env : ScanEnv) (port : String) (fuel : Nat) :
    Option (List Ev × Option String) :=
  scannerThreadRun env port ("Connected to " ++ port ++ " — starting scan") fuel

/-- `ScannerThread.run` of `gui_untested_too.py` (configurable interval). -/
def GuiExt.ScannerThread.run (env : ScanEnv) (port : String) (fuel : Nat) :
    Option (List Ev × Option String) :=
  scannerThreadRun env port ("Connected to " ++ port) fuel

/-! ### Console `start_scan` (`realtime_plot.py`) -/

/-- Events observable from a console `start_scan` execution. -/
inductive CEv where
  | connectAttempt
  | print (s : String)
  | startScanCall
  | plotThreadStart
  | sleep
  | stopScanCall
  | disconnectAttempt
deriving DecidableEq

/-- The console monitoring loop `while pyairview.is_scanning(): sleep(0.5)`
(no stop flag): sleeps counted, with the next query index on normal exit. -/
def Console.scanLoop (env : ScanEnv) : Nat → Nat → Option (Nat × LoopExit)
  | 0, _ => none
  | fuel + 1, q =>
      if env.raiseAt = some q then some (0, LoopExit.raised)
      else if env.scanning q then
        (Console.scanLoop env fuel (q + 1)).map (fun r => (r.1 + 1, r.2))
      else some (0, LoopExit.normal (q + 1))

/-- The try block of the console `start_scan`: connect, start the scan and
the plotting thread, monitor until `is_scanning()` is false, then an
unconditional `pyairview.stop_scan()`. -/
def Console.startScanTryBlock (env : ScanEnv) (fuel : Nat) :
    Option (List CEv × Option String) :=
  match env.connect with
  | ConnectOutcome.raises => some ([CEv.connectAttempt], some env.exnMsg)
  | ConnectOutcome.returnsFalse =>
      some ([CEv.connectAttempt, CEv.print "Failed to connect to the device."], none)
  | ConnectOutcome.returnsTrue =>
      match Console.scanLoop env fuel 0 with
      | none => none
      | some (s, ex) =>
          let pre := [CEv.connectAttempt, CEv.print "Starting RSSI scan...",
              CEv.startScanCall, CEv.plotThreadStart] ++ List.replicate s CEv.sleep
          match ex with
          | LoopExit.raised => some (pre, some env.exnMsg)
          | LoopExit.normal _ =>
              if env.stopScanRaises then
                some (pre ++ [CEv.stopScanCall], some env.exnMsg)
              else some (pre ++ [CEv.stopScanCall], none)

/-- `start_scan` of `realtime_plot.py`: the try block, the
`except Exception` handler printing the error, and the `finally` block
whose disconnect attempt prints either a success or a cleanup-error
message but never re-raises. No exception escapes (`none`). -/
def Console.start_scan (env : ScanEnv) (fuel : Nat) :
    Option (List CEv × Option String) :=
  (Console.startScanTryBlock env fuel).map (fun r =>
    (( match r.2 with
       | some e => r.1 ++ [CEv.print ("Error during scan: " ++ e)]
       | none => r.1)
      ++ [CEv.disconnectAttempt,
          CEv.print (if env.disconnectRaises then "Error during cleanup: " ++ env.exnMsg
                     else "Disconnected from Airview device.")], none))

/-! ## Helper lemmas on the frequency-axis constructions -/

theorem stepList_length (a d : ℚ) (n : Nat) : (stepList a d n).length = n := by
  unfold stepList
  rw [List.length_map, List.length_range]

theorem stepList_getElem? (a d : ℚ) {n i : Nat} (h : i < n) :
    (stepList a d n)[i]? = some (a + i * d) := by
  unfold stepList
  rw [List.getElem?_map, List.getElem?_range h]
  rfl

theorem stepList_getD (a d : ℚ) {n i : Nat} (h : i < n) :
    (stepList a d n).getD i 0 = a + i * d := by
  rw [List.getD_eq_getElem?_getD, stepList_getElem? a d h]
  rfl

theorem stepList_head? (a d : ℚ) {n : Nat} (h : 0 < n) :
    (stepList a d n).head? = some a := by
  rw [List.head?_eq_getElem?, stepList_getElem? a d h]
  norm_num

theorem stepList_getLast? (a d : ℚ) {n : Nat} (h : 0 < n) :
    (stepList a d n).getLast? = some (a + ((n : ℚ) - 1) * d) := by
  rw [List.getLast?_eq_getElem?, stepList_length,
    stepList_getElem? a d (show n - 1 < n by omega)]
  rw [Nat.cast_sub (show 1 ≤ n from h), Nat.cast_one]

theorem evenlySpaced_stepList (a b d : ℚ) {n : Nat} (h : 0 < n) :
    evenlySpaced a b (stepList a d n) ↔ a + ((n : ℚ) - 1) * d = b := by
  unfold evenlySpaced
  rw [stepList_head? a d h, stepList_getLast? a d h, stepList_length]
  constructor
  · rintro ⟨-, h2, -⟩
    exact Option.some.inj h2
  · intro hb
    refine ⟨rfl, by rw [hb], ?_⟩
    intro i hi
    rw [stepList_getD a d (show i + 1 < n by omega), stepList_getD a d (show i < n by omega)]
    have hn2 : 2 ≤ n := by omega
    have hne : ((n : ℚ) - 1) ≠ 0 := by
      have : (2 : ℚ) ≤ (n : ℚ) := by exact_mod_cast hn2
      intro hz
      nlinarith
    have hd : b - a = ((n : ℚ) - 1) * d := by linarith
    rw [hd]
    push_cast
    field_simp
    ring

theorem linspace_eq_stepList (a b : ℚ) {n : Nat} (h : 2 ≤ n) :
    linspace a b n = stepList a ((b - a) / ((n : ℚ) - 1)) n := by
  have h0 : n ≠ 0 := by omega
  have h1 : n ≠ 1 := by omega
  simp [linspace, stepList, h0, h1]

theorem linspace_length (a b : ℚ) (n : Nat) : (linspace a b n).length = n := by
  unfold linspace
  split_ifs with h0 h1
  · simp [h0]
  · simp [h1]
  · rw [List.length_map, List.length_range]

theorem evenlySpaced_linspace (a b : ℚ) {n : Nat} (h : 2 ≤ n) :
    evenlySpaced a b (linspace a b n) := by
  rw [linspace_eq_stepList a b h, evenlySpaced_stepList a b _ (show 0 < n by omega)]
  have hne : ((n : ℚ) - 1) ≠ 0 := by
    have : (2 : ℚ) ≤ (n : ℚ) := by exact_mod_cast h
    intro hz
    nlinarith
  field_simp

theorem GuiBasic.plot_rssi_eq (a b d : ℚ) {vals : List Int} (h : vals ≠ []) :
    GuiBasic.plot_rssi a b d vals = some (stepList a d vals.length) := by
  simp [GuiBasic.plot_rssi, h, stepList_length]

/-! ## Claim theorems: frequency axes -/

/-- C1, counterexample: in the console variant a plotted 3-point sweep gets
the frequency axis `[2399, 2399.5, 2400]`, which is not evenly spaced
between the configured start frequency 2399 and end frequency 2485 (its
last point is 2400, not 2485), so the claim fails for the console
variant. -/
theorem c1_counterexample :
    ¬ evenlySpaced Console.START_FREQ Console.END_FREQ
        (Console.plotFrequencies [-50, -60, -70]) := by
  intro h
  have h2 := h.2.1
  rw [show Console.plotFrequencies [-50, -60, -70]
        = stepList Console.START_FREQ Console.FREQ_STEP 3 from rfl] at h2
  rw [stepList_getLast? Console.START_FREQ Console.FREQ_STEP (by norm_num)] at h2
  have h3 := Option.some.inj h2
  unfold Console.START_FREQ Console.END_FREQ Console.FREQ_STEP at h3
  norm_num at h3

/-- C1, amended: only the extended GUI variant produces an axis evenly
spaced between start and end frequency over N points (for every sweep of
length N ≥ 2). The console and basic GUI variants produce the arithmetic
axis `start + i * step`, which is evenly spaced between start and end only
when `start + (N-1) * step = end` — with the console's constants, only
when N = 173. -/
theorem c1_amended :
    (∀ (a b : ℚ) (vals : List Int), 2 ≤ vals.length →
        GuiExt.plot_rssi a b vals = some (linspace a b vals.length)
          ∧ evenlySpaced a b (linspace a b vals.length))
    ∧ (∀ vals : List Int, vals ≠ [] →
        (evenlySpaced Console.START_FREQ Console.END_FREQ (Console.plotFrequencies vals)
          ↔ vals.length = 173))
    ∧ (∀ (a b d : ℚ) (vals : List Int), vals ≠ [] →
        GuiBasic.plot_rssi a b d vals = some (stepList a d vals.length)
          ∧ (evenlySpaced a b (stepList a d vals.length)
              ↔ a + ((vals.length : ℚ) - 1) * d = b)) := by
  refine ⟨?_, ?_, ?_⟩
  · intro a b vals h2
    have hne : vals ≠ [] := by
      intro he
      rw [he] at h2
      simp at h2
    refine ⟨?_, evenlySpaced_linspace a b h2⟩
    simp [GuiExt.plot_rssi, hne]
  · intro vals hne
    have hp : 0 < vals.length := List.length_pos.mpr hne
    rw [Console.plotFrequencies,
      evenlySpaced_stepList Console.START_FREQ Console.END_FREQ Console.FREQ_STEP hp]
    unfold Console.START_FREQ Console.END_FREQ Console.FREQ_STEP
    constructor
    · intro hEq
      have : (vals.length : ℚ) = 173 := by linarith
      exact_mod_cast this
    · intro hEq
      rw [hEq]
      norm_num
  · intro a b d vals hne
    have hp : 0 < vals.length := List.length_pos.mpr hne
    exact ⟨GuiBasic.plot_rssi_eq a b d hne, evenlySpaced_stepList a b d hp⟩

/-- C1, witness: the amended claim evaluated at concrete sweeps — a
2-point sweep in the extended GUI variant, and 3-point sweeps in the
console and basic GUI variants. -/
theorem c1_witness :
    (GuiExt.plot_rssi 2399 2485 [-50, -60] = some (linspace 2399 2485 2)
      ∧ evenlySpaced 2399 2485 (linspace 2399 2485 2))
    ∧ (evenlySpaced Console.START_FREQ Console.END_FREQ
          (Console.plotFrequencies [-50, -60, -70])
        ↔ ([-50, -60, -70] : List Int).length = 173)
    ∧ (GuiBasic.plot_rssi 2399 2485 (1/2) [-50, -60, -70]
          = some (stepList 2399 (1/2) ([-50, -60, -70] : List Int).length)
        ∧ (evenlySpaced 2399 2485 (stepList 2399 (1/2) ([-50, -60, -70] : List Int).length)
            ↔ 2399 + ((([-50, -60, -70] : List Int).length : ℚ) - 1) * (1/2) = 2485)) :=
  ⟨c1_amended.1 2399 2485 [-50, -60] (by decide),
    c1_amended.2.1 [-50, -60, -70] (by decide),
    c1_amended.2.2 2399 2485 (1/2) [-50, -60, -70] (by decide)⟩

/-- C10: in the basic GUI's `plot_rssi` the step-based frequency array has
exactly as many elements as the input, so the length-mismatch fallback to
`np.linspace` is unreachable and the plotted frequencies are always
`start_freq + i * freq_step`. -/
theorem c10_step_axis_matches_length :
    ∀ (a b d : ℚ) (vals : List Int), vals ≠ [] →
      (stepList a d vals.length).length = vals.length
      ∧ GuiBasic.plot_rssi a b d vals = some (stepList a d vals.length)
      ∧ ∀ i, i < vals.length → (stepList a d vals.length).getD i 0 = a + i * d := by
  intro a b d vals hne
  exact ⟨stepList_length a d vals.length, GuiBasic.plot_rssi_eq a b d hne,
    fun i hi => stepList_getD a d hi⟩

/-- C10, witness: the theorem evaluated at the 1-point sweep `[-50]`. -/
theorem c10_witness :
    (stepList 2399 (1/2) ([-50] : List Int).length).length = ([-50] : List Int).length
    ∧ GuiBasic.plot_rssi 2399 2485 (1/2) [-50] = some (stepList 2399 (1/2) ([-50] : List Int).length)
    ∧ ∀ i, i < ([-50] : List Int).length →
        (stepList 2399 (1/2) ([-50] : List Int).length).getD i 0 = 2399 + i * (1/2) :=
  c10_step_axis_matches_length 2399 2485 (1/2) [-50] (by decide)

/-! ## Helper lemmas on the console parser -/

theorem Console.parse_eq_of_bracketInts {s : String} {ns : List Int}
    (h : Console.bracketInts s = some ns) :
    Console.parse_rssi_input s = (ns, none) := by
  unfold Console.bracketInts at h
  unfold Console.parse_rssi_input
  split
  · rename_i g hm
    rw [hm] at h
    simp only [Option.some_bind] at h
    rw [h]
  · rename_i hm
    rw [hm] at h
    simp at h

theorem Console.parse_eq_of_noMatch {s : String}
    (h : Console.reSearch s.toList = none) :
    Console.parse_rssi_input s = ([], some Console.Diag.noValidData) := by
  unfold Console.parse_rssi_input
  rw [h]

theorem Console.parse_eq_of_badContent {s : String} {g : List Char}
    (hm : Console.reSearch s.toList = some g)
    (hc : Console.allInts (Console.splitOnComma g) = none) :
    Console.parse_rssi_input s = ([], some Console.Diag.errorParsing) := by
  unfold Console.parse_rssi_input
  split
  · rename_i g' hm'
    have hg : g' = g := by
      rw [hm'] at hm
      exact Option.some.inj hm
    rw [hg, hc]
  · rename_i hm'
    rw [hm'] at hm
    simp at hm

/-! ## Claim theorems: the console parser -/

/-- C3, counterexample: on the input
`"Received 2 RSSI level readings: [1, x]"` the pattern is present, yet
`parse_rssi_input` neither returns the integers found inside the brackets
(the conversion of `" x"` raises, so it returns `[]` while the bracket
content holds the integer literal `1`), nor is it in the
pattern-absent case — so the claim's two-way case split is incomplete. -/
theorem c3_counterexample :
    ¬ ((Console.bracketInts "Received 2 RSSI level readings: [1, x]"
          = some (Console.parse_rssi_input "Received 2 RSSI level readings: [1, x]").1
        ∧ (Console.parse_rssi_input "Received 2 RSSI level readings: [1, x]").2 = none)
      ∨ (Console.reSearch "Received 2 RSSI level readings: [1, x]".toList = none
        ∧ Console.parse_rssi_input "Received 2 RSSI level readings: [1, x]"
            = ([], some Console.Diag.noValidData))) := by
  decide

/-- C3, amended: `parse_rssi_input` returns the list of integers inside
the square brackets when the pattern is present and every comma-separated
piece converts with `int`; it returns `[]` with the "No valid RSSI data"
diagnostic when the pattern is absent; and it returns `[]` with the
"Error parsing input" diagnostic when the pattern is present but the
bracket content does not convert. -/
theorem c3_amended :
    ∀ s : String,
      (∀ ns : List Int, Console.bracketInts s = some ns →
          Console.parse_rssi_input s = (ns, none))
      ∧ (Console.reSearch s.toList = none →
          Console.parse_rssi_input s = ([], some Console.Diag.noValidData))
      ∧ (∀ g : List Char, Console.reSearch s.toList = some g →
          Console.allInts (Console.splitOnComma g) = none →
          Console.parse_rssi_input s = ([], some Console.Diag.errorParsing)) :=
  fun _ => ⟨fun _ h => Console.parse_eq_of_bracketInts h,
    fun h => Console.parse_eq_of_noMatch h,
    fun _ hm hc => Console.parse_eq_of_badContent hm hc⟩

/-- C3, witness: the three branches of the amended claim evaluated at
concrete inputs. -/
theorem c3_witness :
    Console.parse_rssi_input "Received 3 RSSI level readings: [-50, -60, -70]"
        = ([-50, -60, -70], none)
    ∧ Console.parse_rssi_input "no readings in sight"
        = ([], some Console.Diag.noValidData)
    ∧ Console.parse_rssi_input "Received 2 RSSI level readings: [1, x]"
        = ([], some Console.Diag.errorParsing) :=
  ⟨(c3_amended "Received 3 RSSI level readings: [-50, -60, -70]").1
      [-50, -60, -70] (by decide),
    (c3_amended "no readings in sight").2.1 (by decide),
    (c3_amended "Received 2 RSSI level readings: [1, x]").2.2
      "1, x".toList (by decide) (by decide)⟩

/-- C9: the embedded `parse_rssi_input` is a total function; whenever the
pattern matches but the bracket content is not a non-empty comma-separated
list of integer literals, the `int` conversion raises and the exception
branch returns `[]` — in particular on the empty-sweep line
`"Received 0 RSSI level readings: []"` — so at the returned value an empty
sweep is indistinguishable from a parse failure. -/
theorem c9_empty_sweep_indistinguishable :
    (∀ (s : String) (g : List Char), Console.reSearch s.toList = some g →
        Console.allInts (Console.splitOnComma g) = none →
        Console.parse_rssi_input s = ([], some Console.Diag.errorParsing))
    ∧ Console.parse_rssi_input "Received 0 RSSI level readings: []"
        = ([], some Console.Diag.errorParsing)
    ∧ (Console.parse_rssi_input "Received 0 RSSI level readings: []").1
        = (Console.parse_rssi_input "no pattern at all").1 :=
  ⟨fun _ _ hm hc => Console.parse_eq_of_badContent hm hc, by decide, by decide⟩

/-- C9, witness: the conditional part of the theorem applied to the
empty-sweep line, whose group 1 is the empty string. -/
theorem c9_witness :
    Console.parse_rssi_input "Received 0 RSSI level readings: []"
      = ([], some Console.Diag.errorParsing) :=
  c9_empty_sweep_indistinguishable.1 "Received 0 RSSI level readings: []" []
    (by decide) (by decide)

/-! ## Helper lemmas on lists -/

theorem getElem?_eq_some_getD {α : Type} (l : List α) (d : α) {i : Nat}
    (h : i < l.length) : l[i]? = some (l.getD i d) := by
  rw [List.getD_eq_getElem?_getD, List.getElem?_eq_getElem h]
  rfl

theorem getLast?_getD_cons {α : Type} (d x : α) (l : List α) :
    (d :: l).getLast?.getD x = l.getLast?.getD d := by
  cases l with
  | nil => rfl
  | cons b t =>
      rw [List.getLast?_cons_cons]
      cases h : (b :: t).getLast? with
      | none =>
          rw [List.getLast?_eq_none_iff] at h
          exact absurd h (by simp)
      | some y => rfl

/-! ## Claim theorems: queue draining -/

/-- C5, counterexample: with two sweeps queued, one pass of the console
variant's redraw loop consumes only the first — the queue is not drained
until empty on that tick, so the claim fails for the console variant. -/
theorem c5_counterexample :
    ¬ (Console.plotTick [[-50], [-60]]).2 = [] := by
  decide

/-- C5, amended: on each tick the two GUI variants do drain the queue
non-blocking until empty and update the chart with each non-empty drained
sweep, in dequeue order (in the basic GUI via `_process_plot_queue`, in
the extended GUI via `_update_plot`), but the console variant's redraw
loop takes at most one sweep per pass (draining only across successive
passes). -/
theorem c5_amended :
    (∀ q : List (List Int), (GuiBasic.processPlotQueue q).2 = []
        ∧ (GuiBasic.processPlotQueue q).1 = q.filter (fun d => d ≠ []))
    ∧ (∀ (latest : List Int) (q : List (List Int)),
        (GuiExt.updatePlotTrace latest q).2.2 = []
        ∧ (GuiExt.updatePlotTrace latest q).2.1 = q.filter (fun d => d ≠ [])
        ∧ (GuiExt.updatePlotDrain latest q).2 = [])
    ∧ Console.plotTick [] = (none, [])
    ∧ (∀ (d : List Int) (rest : List (List Int)),
        Console.plotTick (d :: rest) = (some d, rest)) := by
  refine ⟨?_, ?_, rfl, fun d rest => rfl⟩
  · intro q
    induction q with
    | nil => exact ⟨rfl, rfl⟩
    | cons d rest ih =>
        by_cases hd : d = [] <;>
          simp [GuiBasic.processPlotQueue, hd, ih.1, ih.2]
  · intro latest q
    induction q generalizing latest with
    | nil => exact ⟨rfl, rfl, rfl⟩
    | cons d rest ih =>
        by_cases hd : d = []
        · obtain ⟨ih1, ih2, ih3⟩ := ih latest
          refine ⟨?_, ?_, ?_⟩ <;>
            simp [GuiExt.updatePlotTrace, GuiExt.updatePlotDrain, hd, ih1, ih2, ih3]
        · obtain ⟨ih1, ih2, ih3⟩ := ih d
          refine ⟨?_, ?_, ?_⟩ <;>
            simp [GuiExt.updatePlotTrace, GuiExt.updatePlotDrain, hd, ih1, ih2, ih3]

/-- C8: draining the extended GUI's plot queue empties it, and afterwards
`latest_data` is the last non-empty sweep that was delivered to the queue
(unchanged when no non-empty sweep was queued); the drained sweeps
themselves do not survive the drain. -/
theorem c8_latest_data_invariant :
    ∀ (latest : List Int) (q : List (List Int)),
      (GuiExt.updatePlotDrain latest q).2 = []
      ∧ (GuiExt.updatePlotDrain latest q).1
          = ((q.filter (fun d => d ≠ [])).getLast?).getD latest
      ∧ ∀ d : List Int, (q.filter (fun d => d ≠ [])).getLast? = some d →
          (GuiExt.updatePlotDrain latest q).1 = d := by
  have key : ∀ (q : List (List Int)) (latest : List Int),
      GuiExt.updatePlotDrain latest q
        = (((q.filter (fun d => d ≠ [])).getLast?).getD latest, []) := by
    intro q
    induction q with
    | nil => intro latest; rfl
    | cons d rest ih =>
        intro latest
        by_cases hd : d = []
        · simp [GuiExt.updatePlotDrain, hd, ih]
        · simp only [GuiExt.updatePlotDrain, hd, if_neg, List.filter_cons]
          rw [ih d]
          simp [hd, getLast?_getD_cons]
  intro latest q
  refine ⟨by rw [key], by rw [key], ?_⟩
  intro d hd
  rw [key, hd]
  rfl

/-- C8, witness: the conditional part evaluated on a queue holding an
empty sweep followed by two non-empty sweeps. -/
theorem c8_witness :
    (GuiExt.updatePlotDrain [-99] [[], [-50], [-60]]).1 = [-60] :=
  (c8_latest_data_invariant [-99] [[], [-50], [-60]]).2.2 [-60] (by decide)

/-! ## Claim theorems: CSV export and logging -/

/-- C4: in the extended GUI, the export rows and the log rows pair the
`i`-th RSSI value of the sweep with the `i`-th entry of
`np.linspace(start, end, N)`, one row per value, written in index order
(the row at position `i` of the written list is exactly the `i`-th
pair). -/
theorem c4_rows_pair_freq_rssi :
    ∀ (a b : ℚ) (ts : String) (data : List Int) (i : Nat), i < data.length →
      (GuiExt.exportRows a b data).length = data.length
      ∧ (GuiExt.exportRows a b data)[i]?
          = some (GuiExt.ExpRow.entry ((linspace a b data.length).getD i 0)
              (data.getD i 0))
      ∧ (GuiExt.logRows a b ts data).length = data.length
      ∧ (GuiExt.logRows a b ts data)[i]?
          = some (GuiExt.LogRow.entry ts ((linspace a b data.length).getD i 0)
              (data.getD i 0)) := by
  intro a b ts data i hi
  have hlen : ((linspace a b data.length).zip data).length = data.length := by
    rw [List.length_zip, linspace_length, min_self]
  have hfreq : (linspace a b data.length)[i]?
      = some ((linspace a b data.length).getD i 0) :=
    getElem?_eq_some_getD _ 0 (by rw [linspace_length]; exact hi)
  have hdata : data[i]? = some (data.getD i 0) := getElem?_eq_some_getD _ 0 hi
  have hzip : ((linspace a b data.length).zip data)[i]?
      = some ((linspace a b data.length).getD i 0, data.getD i 0) :=
    List.getElem?_zip_eq_some.mpr ⟨hfreq, hdata⟩
  refine ⟨?_, ?_, ?_, ?_⟩
  · rw [GuiExt.exportRows, List.length_map, hlen]
  · rw [GuiExt.exportRows, List.getElem?_map, hzip]
    rfl
  · rw [GuiExt.logRows, List.length_map, hlen]
  · rw [GuiExt.logRows, List.getElem?_map, hzip]
    rfl

/-- C4, witness: the theorem evaluated at row 0 of the 2-point sweep
`[-50, -60]`. -/
theorem c4_witness :
    (GuiExt.exportRows 2399 2485 [-50, -60]).length = ([-50, -60] : List Int).length
    ∧ (GuiExt.exportRows 2399 2485 [-50, -60])[0]?
        = some (GuiExt.ExpRow.entry
            ((linspace 2399 2485 ([-50, -60] : List Int).length).getD 0 0)
            (([-50, -60] : List Int).getD 0 0))
    ∧ (GuiExt.logRows 2399 2485 "t" [-50, -60]).length = ([-50, -60] : List Int).length
    ∧ (GuiExt.logRows 2399 2485 "t" [-50, -60])[0]?
        = some (GuiExt.LogRow.entry "t"
            ((linspace 2399 2485 ([-50, -60] : List Int).length).getD 0 0)
            (([-50, -60] : List Int).getD 0 0)) :=
  c4_rows_pair_freq_rssi 2399 2485 "t" [-50, -60] 0 (by decide)

theorem GuiExt.count_header_logRows (a b : ℚ) (ts : String) (data : List Int) :
    (GuiExt.logRows a b ts data).count GuiExt.LogRow.header = 0 := by
  rw [List.count_eq_zero]
  intro hmem
  unfold GuiExt.logRows at hmem
  simp only [List.mem_map] at hmem
  obtain ⟨p, -, hp⟩ := hmem
  exact GuiExt.LogRow.noConfusion hp

theorem GuiExt.exportRows_length (a b : ℚ) (data : List Int) :
    (GuiExt.exportRows a b data).length = data.length := by
  rw [GuiExt.exportRows, List.length_map, List.length_zip, linspace_length, min_self]

/-- C7: the log file is only ever appended to (the old contents are a
prefix of the new), every reachable log file starts with the header row
and contains it exactly once (it is written only when the file did not
yet exist), the log path and open mode are the fixed `~/rssi_log.csv` and
`'a'`, and the export CSV is exactly the header followed by one row per
RSSI value of the latest sweep (no file at all when there is no data). -/
theorem c7_log_append_only_export_shape :
    (∀ (file : Option (List GuiExt.LogRow)) (a b : ℚ) (ts : String) (data : List Int),
        ∃ t, GuiExt._log_data file a b ts data = (file.getD []) ++ t)
    ∧ (∀ file, GuiExt.LogReachable file →
        ∀ rows, file = some rows →
          rows.count GuiExt.LogRow.header = 1
          ∧ rows.head? = some GuiExt.LogRow.header)
    ∧ GuiExt.log_path = "~/rssi_log.csv"
    ∧ GuiExt.logOpenMode = "a"
    ∧ (∀ (a b : ℚ) (data : List Int), data ≠ [] →
        GuiExt._export_csv a b data
          = some (GuiExt.ExpRow.header :: GuiExt.exportRows a b data)
        ∧ (GuiExt.exportRows a b data).length = data.length)
    ∧ (∀ a b : ℚ, GuiExt._export_csv a b [] = none) := by
  refine ⟨?_, ?_, rfl, rfl, ?_, ?_⟩
  · intro file a b ts data
    cases file with
    | none => exact ⟨GuiExt.LogRow.header :: GuiExt.logRows a b ts data, rfl⟩
    | some rows => exact ⟨GuiExt.logRows a b ts data, rfl⟩
  · intro file hreach
    induction hreach with
    | init => intro rows h; exact Option.noConfusion h
    | step f a b ts data hf ih =>
        intro rows h
        have hrows := Option.some.inj h
        subst hrows
        cases f with
        | none =>
            constructor
            · show (GuiExt.LogRow.header :: GuiExt.logRows a b ts data).count
                  GuiExt.LogRow.header = 1
              rw [List.count_cons, GuiExt.count_header_logRows]
              simp
            · rfl
        | some rs =>
            obtain ⟨hcount, hhead⟩ := ih rs rfl
            constructor
            · show (rs ++ GuiExt.logRows a b ts data).count GuiExt.LogRow.header = 1
              rw [List.count_append, GuiExt.count_header_logRows, hcount]
            · show (rs ++ GuiExt.logRows a b ts data).head? = some GuiExt.LogRow.header
              cases rs with
              | nil => exact Option.noConfusion hhead
              | cons r rt => exact hhead
  · intro a b data hdata
    exact ⟨by rw [GuiExt._export_csv, if_neg hdata], GuiExt.exportRows_length a b data⟩
  · intro a b
    rfl

/-- C7, witness: after logging the sweep `[-50]` into a non-existent file,
the file contains the header exactly once and starts with it; exporting
the sweep `[-50]` yields the header followed by one data row. -/
theorem c7_witness :
    ((GuiExt._log_data none 2399 2485 "2026-01-01" [-50]).count GuiExt.LogRow.header = 1
      ∧ (GuiExt._log_data none 2399 2485 "2026-01-01" [-50]).head?
          = some GuiExt.LogRow.header)
    ∧ (GuiExt._export_csv 2399 2485 [-50]
          = some (GuiExt.ExpRow.header :: GuiExt.exportRows 2399 2485 [-50])
        ∧ (GuiExt.exportRows 2399 2485 [-50]).length = ([-50] : List Int).length) :=
  ⟨c7_log_append_only_export_shape.2.1
      (some (GuiExt._log_data none 2399 2485 "2026-01-01" [-50]))
      (GuiExt.LogReachable.step none 2399 2485 "2026-01-01" [-50]
        GuiExt.LogReachable.init)
      (GuiExt._log_data none 2399 2485 "2026-01-01" [-50]) rfl,
    c7_log_append_only_export_shape.2.2.2.2.1 2399 2485 [-50] (by decide)⟩

/-! ## Helper lemmas on the scanner models -/

theorem monitorLoop_of_stop (env : ScanEnv) :
    ∀ k fuel i q : Nat, env.stop (i + k) = true → k < fuel →
      ∃ s e, monitorLoop env fuel i q = some (s, e) ∧ s ≤ k := by
  intro k
  induction k with
  | zero =>
      intro fuel i q hstop hf
      obtain ⟨f, rfl⟩ : ∃ f, fuel = f + 1 := ⟨fuel - 1, by omega⟩
      rw [Nat.add_zero] at hstop
      exact ⟨0, LoopExit.normal q, by simp [monitorLoop, hstop], Nat.le_refl 0⟩
  | succ k ih =>
      intro fuel i q hstop hf
      obtain ⟨f, rfl⟩ : ∃ f, fuel = f + 1 := ⟨fuel - 1, by omega⟩
      by_cases h1 : env.stop i
      · exact ⟨0, LoopExit.normal q, by simp [monitorLoop, h1], by omega⟩
      · by_cases h2 : env.raiseAt = some q
        · exact ⟨0, LoopExit.raised, by simp [monitorLoop, h1, h2], by omega⟩
        · by_cases h3 : env.scanning q
          · obtain ⟨s, e, heq, hs⟩ := ih f (i + 1) (q + 1)
              (by rw [show i + 1 + k = i + (k + 1) by omega]; exact hstop) (by omega)
            exact ⟨s + 1, e, by simp [monitorLoop, h1, h2, h3, heq], by omega⟩
          · exact ⟨0, LoopExit.normal (q + 1),
              by simp [monitorLoop, h1, h2, h3], by omega⟩

theorem scannerTryBlock_true {env : ScanEnv} (port msg : String) {fuel s : Nat}
    {e : LoopExit} (hc : env.connect = ConnectOutcome.returnsTrue)
    (hl : monitorLoop env fuel 0 0 = some (s, e)) :
    ∃ post pending, scannerTryBlock env port msg fuel
        = some (([Ev.connectAttempt, Ev.cbStatus msg, Ev.startScanCall]
            ++ List.replicate s Ev.sleep) ++ post, pending)
      ∧ (post = [] ∨ post = [Ev.stopScanCall])
      ∧ (e = LoopExit.raised → pending = some env.exnMsg) := by
  cases e with
  | raised =>
      exact ⟨[], some env.exnMsg, by simp [scannerTryBlock, hc, hl], Or.inl rfl,
        fun _ => rfl⟩
  | normal q =>
      by_cases h2 : env.raiseAt = some q
      · exact ⟨[], some env.exnMsg, by simp [scannerTryBlock, hc, hl, h2], Or.inl rfl,
          fun _ => rfl⟩
      · by_cases h3 : env.scanning q
        · by_cases h4 : env.stopScanRaises
          · exact ⟨[Ev.stopScanCall], some env.exnMsg,
              by simp [scannerTryBlock, hc, hl, h2, h3, h4], Or.inr rfl, fun _ => rfl⟩
          · exact ⟨[Ev.stopScanCall], none,
              by simp [scannerTryBlock, hc, hl, h2, h3, h4], Or.inr rfl,
              fun hcon => LoopExit.noConfusion hcon⟩
        · exact ⟨[], none, by simp [scannerTryBlock, hc, hl, h2, h3], Or.inl rfl,
            fun hcon => LoopExit.noConfusion hcon⟩

theorem scannerThreadRun_of_stop (env : ScanEnv) (port msg : String)
    {fuel k : Nat} (hstop : env.stop k = true) (hf : k < fuel) :
    ∃ tr, scannerThreadRun env port msg fuel = some (tr, none)
      ∧ Ev.disconnectAttempt ∈ tr ∧ tr.count Ev.sleep ≤ k := by
  cases hc : env.connect with
  | raises =>
      refine ⟨[Ev.connectAttempt, Ev.cbError ("Scanner error: " ++ env.exnMsg),
          Ev.disconnectAttempt, Ev.cbStatus "Disconnected"], ?_, ?_, ?_⟩
      · simp [scannerThreadRun, scannerTryBlock, hc]
      · simp
      · simp [List.count_cons]
  | returnsFalse =>
      refine ⟨[Ev.connectAttempt, Ev.cbError ("Failed to connect to " ++ port),
          Ev.disconnectAttempt, Ev.cbStatus "Disconnected"], ?_, ?_, ?_⟩
      · simp [scannerThreadRun, scannerTryBlock, hc]
      · simp
      · simp [List.count_cons]
  | returnsTrue =>
      obtain ⟨s, e, hml, hs⟩ := monitorLoop_of_stop env k fuel 0 0
        (by rw [Nat.zero_add]; exact hstop) hf
      obtain ⟨post, pending, htb, hpost, -⟩ := scannerTryBlock_true port msg hc hml
      cases pending with
      | none =>
          have hrun : scannerThreadRun env port msg fuel
              = some ((([Ev.connectAttempt, Ev.cbStatus msg, Ev.startScanCall]
                  ++ List.replicate s Ev.sleep) ++ post)
                ++ [Ev.disconnectAttempt, Ev.cbStatus "Disconnected"], none) := by
            unfold scannerThreadRun
            rw [htb]
            rfl
          refine ⟨_, hrun, by simp, ?_⟩
          rcases hpost with rfl | rfl <;>
            simp [List.count_append, List.count_replicate, List.count_cons,
              List.count_nil] <;> omega
      | some ex =>
          have hrun : scannerThreadRun env port msg fuel
              = some (((([Ev.connectAttempt, Ev.cbStatus msg, Ev.startScanCall]
                  ++ List.replicate s Ev.sleep) ++ post)
                  ++ [Ev.cbError ("Scanner error: " ++ ex)])
                ++ [Ev.disconnectAttempt, Ev.cbStatus "Disconnected"], none) := by
            unfold scannerThreadRun
            rw [htb]
            rfl
          refine ⟨_, hrun, by simp, ?_⟩
          rcases hpost with rfl | rfl <;>
            simp [List.count_append, List.count_replicate, List.count_cons,
              List.count_nil] <;> omega

theorem scannerThreadRun_props (env : ScanEnv) (port msg : String) (fuel : Nat)
    (tr : List Ev) (p : Option String)
    (h : scannerThreadRun env port msg fuel = some (tr, p)) :
    p = none
    ∧ tr.count Ev.connectAttempt = 1
    ∧ (∃ pre, tr = pre ++ [Ev.disconnectAttempt, Ev.cbStatus "Disconnected"])
    ∧ (env.connect = ConnectOutcome.raises →
        Ev.cbError ("Scanner error: " ++ env.exnMsg) ∈ tr)
    ∧ (env.connect = ConnectOutcome.returnsFalse →
        Ev.cbError ("Failed to connect to " ++ port) ∈ tr)
    ∧ (∀ s, env.connect = ConnectOutcome.returnsTrue →
        monitorLoop env fuel 0 0 = some (s, LoopExit.raised) →
        Ev.cbError ("Scanner error: " ++ env.exnMsg) ∈ tr) := by
  cases hc : env.connect with
  | raises =>
      have hrun : scannerThreadRun env port msg fuel
          = some ([Ev.connectAttempt, Ev.cbError ("Scanner error: " ++ env.exnMsg),
              Ev.disconnectAttempt, Ev.cbStatus "Disconnected"], none) := by
        simp [scannerThreadRun, scannerTryBlock, hc]
      rw [hrun] at h
      simp only [Option.some.injEq, Prod.mk.injEq] at h
      obtain ⟨h1, h2⟩ := h
      subst h1
      subst h2
      refine ⟨rfl, by simp [List.count_cons], ?_, fun _ => by simp, ?_, ?_⟩
      · exact ⟨[Ev.connectAttempt, Ev.cbError ("Scanner error: " ++ env.exnMsg)], rfl⟩
      · intro hcon
        exact ConnectOutcome.noConfusion hcon
      · intro s hcon
        exact fun _ => ConnectOutcome.noConfusion hcon
  | returnsFalse =>
      have hrun : scannerThreadRun env port msg fuel
          = some ([Ev.connectAttempt, Ev.cbError ("Failed to connect to " ++ port),
              Ev.disconnectAttempt, Ev.cbStatus "Disconnected"], none) := by
        simp [scannerThreadRun, scannerTryBlock, hc]
      rw [hrun] at h
      simp only [Option.some.injEq, Prod.mk.injEq] at h
      obtain ⟨h1, h2⟩ := h
      subst h1
      subst h2
      refine ⟨rfl, by simp [List.count_cons], ?_, ?_, fun _ => by simp, ?_⟩
      · exact ⟨[Ev.connectAttempt, Ev.cbError ("Failed to connect to " ++ port)], rfl⟩
      · intro hcon
        exact ConnectOutcome.noConfusion hcon
      · intro s hcon
        exact fun _ => ConnectOutcome.noConfusion hcon
  | returnsTrue =>
      cases hml : monitorLoop env fuel 0 0 with
      | none =>
          have hrun : scannerThreadRun env port msg fuel = none := by
            simp [scannerThreadRun, scannerTryBlock, hc, hml]
          rw [hrun] at h
          exact Option.noConfusion h
      | some r =>
          obtain ⟨s, e⟩ := r
          obtain ⟨post, pending, htb, hpost, hraised⟩ :=
            scannerTryBlock_true port msg hc hml
          cases pending with
          | none =>
              have hrun : scannerThreadRun env port msg fuel
                  = some ((([Ev.connectAttempt, Ev.cbStatus msg, Ev.startScanCall]
                      ++ List.replicate s Ev.sleep) ++ post)
                    ++ [Ev.disconnectAttempt, Ev.cbStatus "Disconnected"], none) := by
                unfold scannerThreadRun
                rw [htb]
                rfl
              rw [hrun] at h
              simp only [Option.some.injEq, Prod.mk.injEq] at h
              obtain ⟨h1, h2⟩ := h
              subst h1
              subst h2
              refine ⟨rfl, ?_, ?_, ?_, ?_, ?_⟩
              · rcases hpost with rfl | rfl <;>
                  simp [List.count_append, List.count_replicate, List.count_cons]
              · exact ⟨([Ev.connectAttempt, Ev.cbStatus msg, Ev.startScanCall]
                  ++ List.replicate s Ev.sleep) ++ post, rfl⟩
              · intro hcon
                exact ConnectOutcome.noConfusion hcon
              · intro hcon
                exact ConnectOutcome.noConfusion hcon
              · intro s' _ hml'
                have he : e = LoopExit.raised :=
                  congrArg Prod.snd (Option.some.inj hml')
                exact absurd (hraised he) (by simp)
          | some ex =>
              have hrun : scannerThreadRun env port msg fuel
                  = some (((([Ev.connectAttempt, Ev.cbStatus msg, Ev.startScanCall]
                      ++ List.replicate s Ev.sleep) ++ post)
                      ++ [Ev.cbError ("Scanner error: " ++ ex)])
                    ++ [Ev.disconnectAttempt, Ev.cbStatus "Disconnected"], none) := by
                unfold scannerThreadRun
                rw [htb]
                rfl
              rw [hrun] at h
              simp only [Option.some.injEq, Prod.mk.injEq] at h
              obtain ⟨h1, h2⟩ := h
              subst h1
              subst h2
              refine ⟨rfl, ?_, ?_, ?_, ?_, ?_⟩
              · rcases hpost with rfl | rfl <;>
                  simp [List.count_append, List.count_replicate, List.count_cons]
              · exact ⟨(([Ev.connectAttempt, Ev.cbStatus msg, Ev.startScanCall]
                  ++ List.replicate s Ev.sleep) ++ post)
                  ++ [Ev.cbError ("Scanner error: " ++ ex)], rfl⟩
              · intro hcon
                exact ConnectOutcome.noConfusion hcon
              · intro hcon
                exact ConnectOutcome.noConfusion hcon
              · intro s' _ hml'
                have he : e = LoopExit.raised :=
                  congrArg Prod.snd (Option.some.inj hml')
                have hex : some ex = some env.exnMsg := hraised he
                rw [Option.some.inj hex]
                simp

theorem Console.startScanTryBlock_true {env : ScanEnv} {fuel s : Nat}
    {e : LoopExit} (hc : env.connect = ConnectOutcome.returnsTrue)
    (hl : Console.scanLoop env fuel 0 = some (s, e)) :
    ∃ post pending, Console.startScanTryBlock env fuel
        = some (([CEv.connectAttempt, CEv.print "Starting RSSI scan...",
            CEv.startScanCall, CEv.plotThreadStart]
            ++ List.replicate s CEv.sleep) ++ post, pending)
      ∧ (post = [] ∨ post = [CEv.stopScanCall])
      ∧ (e = LoopExit.raised → pending = some env.exnMsg) := by
  cases e with
  | raised =>
      exact ⟨[], some env.exnMsg, by simp [Console.startScanTryBlock, hc, hl],
        Or.inl rfl, fun _ => rfl⟩
  | normal q =>
      by_cases h4 : env.stopScanRaises
      · exact ⟨[CEv.stopScanCall], some env.exnMsg,
          by simp [Console.startScanTryBlock, hc, hl, h4], Or.inr rfl, fun _ => rfl⟩
      · exact ⟨[CEv.stopScanCall], none,
          by simp [Console.startScanTryBlock, hc, hl, h4], Or.inr rfl,
          fun hcon => LoopExit.noConfusion hcon⟩

theorem Console.start_scan_props (env : ScanEnv) (fuel : Nat)
    (tr : List CEv) (p : Option String)
    (h : Console.start_scan env fuel = some (tr, p)) :
    p = none
    ∧ tr.count CEv.connectAttempt = 1
    ∧ (∃ pre m, tr = pre ++ [CEv.disconnectAttempt, CEv.print m])
    ∧ (env.connect = ConnectOutcome.raises →
        CEv.print ("Error during scan: " ++ env.exnMsg) ∈ tr)
    ∧ (env.connect = ConnectOutcome.returnsFalse →
        CEv.print "Failed to connect to the device." ∈ tr)
    ∧ (∀ s, env.connect = ConnectOutcome.returnsTrue →
        Console.scanLoop env fuel 0 = some (s, LoopExit.raised) →
        CEv.print ("Error during scan: " ++ env.exnMsg) ∈ tr) := by
  cases hc : env.connect with
  | raises =>
      have hrun : Console.start_scan env fuel
          = some ([CEv.connectAttempt, CEv.print ("Error during scan: " ++ env.exnMsg),
              CEv.disconnectAttempt,
              CEv.print (if env.disconnectRaises
                then "Error during cleanup: " ++ env.exnMsg
                else "Disconnected from Airview device.")], none) := by
        simp [Console.start_scan, Console.startScanTryBlock, hc]
      rw [hrun] at h
      simp only [Option.some.injEq, Prod.mk.injEq] at h
      obtain ⟨h1, h2⟩ := h
      subst h1
      subst h2
      refine ⟨rfl, by simp [List.count_cons], ?_, fun _ => by simp, ?_, ?_⟩
      · exact ⟨[CEv.connectAttempt, CEv.print ("Error during scan: " ++ env.exnMsg)],
          _, rfl⟩
      · intro hcon
        exact ConnectOutcome.noConfusion hcon
      · intro s hcon
        exact fun _ => ConnectOutcome.noConfusion hcon
  | returnsFalse =>
      have hrun : Console.start_scan env fuel
          = some ([CEv.connectAttempt, CEv.print "Failed to connect to the device.",
              CEv.disconnectAttempt,
              CEv.print (if env.disconnectRaises
                then "Error during cleanup: " ++ env.exnMsg
                else "Disconnected from Airview device.")], none) := by
        simp [Console.start_scan, Console.startScanTryBlock, hc]
      rw [hrun] at h
      simp only [Option.some.injEq, Prod.mk.injEq] at h
      obtain ⟨h1, h2⟩ := h
      subst h1
      subst h2
      refine ⟨rfl, by simp [List.count_cons], ?_, ?_, fun _ => by simp, ?_⟩
      · exact ⟨[CEv.connectAttempt, CEv.print "Failed to connect to the device."],
          _, rfl⟩
      · intro hcon
        exact ConnectOutcome.noConfusion hcon
      · intro s hcon
        exact fun _ => ConnectOutcome.noConfusion hcon
  | returnsTrue =>
      cases hml : Console.scanLoop env fuel 0 with
      | none =>
          have hrun : Console.start_scan env fuel = none := by
            simp [Console.start_scan, Console.startScanTryBlock, hc, hml]
          rw [hrun] at h
          exact Option.noConfusion h
      | some r =>
          obtain ⟨s, e⟩ := r
          obtain ⟨post, pending, htb, hpost, hraised⟩ :=
            Console.startScanTryBlock_true hc hml
          cases pending with
          | none =>
              have hrun : Console.start_scan env fuel
                  = some ((([CEv.connectAttempt, CEv.print "Starting RSSI scan...",
                      CEv.startScanCall, CEv.plotThreadStart]
                      ++ List.replicate s CEv.sleep) ++ post)
                    ++ [CEv.disconnectAttempt,
                        CEv.print (if env.disconnectRaises
                          then "Error during cleanup: " ++ env.exnMsg
                          else "Disconnected from Airview device.")], none) := by
                unfold Console.start_scan
                rw [htb]
                rfl
              rw [hrun] at h
              simp only [Option.some.injEq, Prod.mk.injEq] at h
              obtain ⟨h1, h2⟩ := h
              subst h1
              subst h2
              refine ⟨rfl, ?_, ?_, ?_, ?_, ?_⟩
              · rcases hpost with rfl | rfl <;>
                  simp [List.count_append, List.count_replicate, List.count_cons]
              · exact ⟨([CEv.connectAttempt, CEv.print "Starting RSSI scan...",
                  CEv.startScanCall, CEv.plotThreadStart]
                  ++ List.replicate s CEv.sleep) ++ post, _, rfl⟩
              · intro hcon
                exact ConnectOutcome.noConfusion hcon
              · intro hcon
                exact ConnectOutcome.noConfusion hcon
              · intro s' _ hml'
                have he : e = LoopExit.raised :=
                  congrArg Prod.snd (Option.some.inj hml')
                exact absurd (hraised he) (by simp)
          | some ex =>
              have hrun : Console.start_scan env fuel
                  = some (((([CEv.connectAttempt, CEv.print "Starting RSSI scan...",
                      CEv.startScanCall, CEv.plotThreadStart]
                      ++ List.replicate s CEv.sleep) ++ post)
                      ++ [CEv.print ("Error during scan: " ++ ex)])
                    ++ [CEv.disconnectAttempt,
                        CEv.print (if env.disconnectRaises
                          then "Error during cleanup: " ++ env.exnMsg
                          else "Disconnected from Airview device.")], none) := by
                unfold Console.start_scan
                rw [htb]
                rfl
              rw [hrun] at h
              simp only [Option.some.injEq, Prod.mk.injEq] at h
              obtain ⟨h1, h2⟩ := h
              subst h1
              subst h2
              refine ⟨rfl, ?_, ?_, ?_, ?_, ?_⟩
              · rcases hpost with rfl | rfl <;>
                  simp [List.count_append, List.count_replicate, List.count_cons]
              · exact ⟨(([CEv.connectAttempt, CEv.print "Starting RSSI scan...",
                  CEv.startScanCall, CEv.plotThreadStart]
                  ++ List.replicate s CEv.sleep) ++ post)
                  ++ [CEv.print ("Error during scan: " ++ ex)], _, rfl⟩
              · intro hcon
                exact ConnectOutcome.noConfusion hcon
              · intro hcon
                exact ConnectOutcome.noConfusion hcon
              · intro s' _ hml'
                have he : e = LoopExit.raised :=
                  congrArg Prod.snd (Option.some.inj hml')
                have hex : some ex = some env.exnMsg := hraised he
                rw [Option.some.inj hex]
                simp

/-! ## Claim theorems: scanner lifecycle -/

/-- C2: in both GUI variants, if the cooperative stop flag is visible at
the `k`-th check of the monitoring loop, the thread performs at most `k`
polling-interval sleeps in total — i.e. no sleep at or after the check
that sees the flag, so at most the one sleep already in progress when the
stop was requested completes — the loop terminates, and the trace always
contains a disconnect attempt: for every connect outcome (success, `False`
return, or raise), including a stop requested before the connection
completed (`k = 0`). -/
theorem c2_stop_halts_loop_and_disconnects :
    ∀ (env : ScanEnv) (port : String) (fuel k : Nat),
      env.stop k = true → k < fuel →
      (∃ tr, GuiBasic.ScannerThread.run env port fuel = some (tr, none)
        ∧ Ev.disconnectAttempt ∈ tr ∧ tr.count Ev.sleep ≤ k)
      ∧ (∃ tr, GuiExt.ScannerThread.run env port fuel = some (tr, none)
        ∧ Ev.disconnectAttempt ∈ tr ∧ tr.count Ev.sleep ≤ k) := by
  intro env port fuel k hstop hf
  exact ⟨scannerThreadRun_of_stop env port _ hstop hf,
    scannerThreadRun_of_stop env port _ hstop hf⟩

/-- C2, witness: a stop requested before the first loop check (`k = 0`)
with a successful connection — the loop exits with zero sleeps and the
thread disconnects. -/
theorem c2_witness :
    (∃ tr, GuiBasic.ScannerThread.run
        ⟨ConnectOutcome.returnsTrue, fun _ => true, fun _ => true, none, false, false, ""⟩
        "/dev/ttyACM0" 1 = some (tr, none)
      ∧ Ev.disconnectAttempt ∈ tr ∧ tr.count Ev.sleep ≤ 0)
    ∧ (∃ tr, GuiExt.ScannerThread.run
        ⟨ConnectOutcome.returnsTrue, fun _ => true, fun _ => true, none, false, false, ""⟩
        "/dev/ttyACM0" 1 = some (tr, none)
      ∧ Ev.disconnectAttempt ∈ tr ∧ tr.count Ev.sleep ≤ 0) :=
  c2_stop_halts_loop_and_disconnects
    ⟨ConnectOutcome.returnsTrue, fun _ => true, fun _ => true, none, false, false, ""⟩
    "/dev/ttyACM0" 1 0 rfl (by decide)

/-- C6: in all three variants no scan-lifecycle failure escapes the
scanner path as an exception (the escaping-exception slot is always
`none`), the connect is attempted exactly once (no retry), the trace
always ends with a disconnect attempt followed by a final status
update (the thread/function finishes normally, so no failure is fatal),
and each failure — connect raising, connect returning `False`, or an
exception out of the monitoring loop — is surfaced as an error status
string (GUI) or printed message (console). -/
theorem c6_failures_caught_and_surfaced :
    (∀ (env : ScanEnv) (port : String) (fuel : Nat) (tr : List Ev) (p : Option String),
        GuiBasic.ScannerThread.run env port fuel = some (tr, p) →
        p = none
        ∧ tr.count Ev.connectAttempt = 1
        ∧ (∃ pre, tr = pre ++ [Ev.disconnectAttempt, Ev.cbStatus "Disconnected"])
        ∧ (env.connect = ConnectOutcome.raises →
            Ev.cbError ("Scanner error: " ++ env.exnMsg) ∈ tr)
        ∧ (env.connect = ConnectOutcome.returnsFalse →
            Ev.cbError ("Failed to connect to " ++ port) ∈ tr)
        ∧ (∀ s, env.connect = ConnectOutcome.returnsTrue →
            monitorLoop env fuel 0 0 = some (s, LoopExit.raised) →
            Ev.cbError ("Scanner error: " ++ env.exnMsg) ∈ tr))
    ∧ (∀ (env : ScanEnv) (port : String) (fuel : Nat) (tr : List Ev) (p : Option String),
        GuiExt.ScannerThread.run env port fuel = some (tr, p) →
        p = none
        ∧ tr.count Ev.connectAttempt = 1
        ∧ (∃ pre, tr = pre ++ [Ev.disconnectAttempt, Ev.cbStatus "Disconnected"])
        ∧ (env.connect = ConnectOutcome.raises →
            Ev.cbError ("Scanner error: " ++ env.exnMsg) ∈ tr)
        ∧ (env.connect = ConnectOutcome.returnsFalse →
            Ev.cbError ("Failed to connect to " ++ port) ∈ tr)
        ∧ (∀ s, env.connect = ConnectOutcome.returnsTrue →
            monitorLoop env fuel 0 0 = some (s, LoopExit.raised) →
            Ev.cbError ("Scanner error: " ++ env.exnMsg) ∈ tr))
    ∧ (∀ (env : ScanEnv) (fuel : Nat) (tr : List CEv) (p : Option String),
        Console.start_scan env fuel = some (tr, p) →
        p = none
        ∧ tr.count CEv.connectAttempt = 1
        ∧ (∃ pre m, tr = pre ++ [CEv.disconnectAttempt, CEv.print m])
        ∧ (env.connect = ConnectOutcome.raises →
            CEv.print ("Error during scan: " ++ env.exnMsg) ∈ tr)
        ∧ (env.connect = ConnectOutcome.returnsFalse →
            CEv.print "Failed to connect to the device." ∈ tr)
        ∧ (∀ s, env.connect = ConnectOutcome.returnsTrue →
            Console.scanLoop env fuel 0 = some (s, LoopExit.raised) →
            CEv.print ("Error during scan: " ++ env.exnMsg) ∈ tr)) :=
  ⟨fun env port fuel tr p h => scannerThreadRun_props env port _ fuel tr p h,
    fun env port fuel tr p h => scannerThreadRun_props env port _ fuel tr p h,
    fun env fuel tr p h => Console.start_scan_props env fuel tr p h⟩

/-- C6, witness: a failed connection (`connect` returns `False`) in the
basic GUI variant — the produced trace still ends in a disconnect attempt
and a final status update. -/
theorem c6_witness :
    ∃ pre, ([Ev.connectAttempt, Ev.cbError "Failed to connect to /dev/ttyACM0",
        Ev.disconnectAttempt, Ev.cbStatus "Disconnected"] : List Ev)
      = pre ++ [Ev.disconnectAttempt, Ev.cbStatus "Disconnected"] := by
  have h : GuiBasic.ScannerThread.run
      ⟨ConnectOutcome.returnsFalse, fun _ => false, fun _ => false, none, false, false, ""⟩
      "/dev/ttyACM0" 1
      = some ([Ev.connectAttempt, Ev.cbError "Failed to connect to /dev/ttyACM0",
          Ev.disconnectAttempt, Ev.cbStatus "Disconnected"], none) := rfl
  exact (c6_failures_caught_and_surfaced.1
      ⟨ConnectOutcome.returnsFalse, fun _ => false, fun _ => false, none, false, false, ""⟩
      "/dev/ttyACM0" 1 _ none h).2.2.1
